import Mathlib

/-!
# Verification of the rlog log pipeline (zenria/rlog)

Shallow embedding, in Lean 4, of the parts of the rlog shipper and collector
that the checked specification talks about:

* the collector indexer's `Batch` state machine and its main loop
  (`src/rlog-collector/src/index.rs`);
* the shipper ingress loops for GELF (TCP) and syslog (UDP) and their
  queue-overflow handling (`src/rlog-shipper/src/gelf_server.rs`,
  `src/rlog-shipper/src/syslog_server.rs`);
* the syslog exclusion filters (`syslog_server.rs`, module `filters`);
* the GELF `extra`-field construction of `TryFrom<GelfLog> for LogLine`;
* the severity and facility conversions used when the collector turns a wire
  `LogLine` into an `IndexLogEntry`;
* the shipper metrics snapshot `to_grpc_metrics`
  (`src/rlog-shipper/src/metrics.rs`);
* the file tailer task `watch_log` and `FileParseConfig::to_log`
  (`src/rlog-shipper/src/log_file.rs`).

Machine integers stay abstract (`Nat`/`Int`): none of the verified paths
exercises wrap-around.  Regular expressions, wall-clock time and the
timestamp/number parsers of external crates are abstracted as function
parameters; JSON objects are modelled as association lists.  Generated
protobuf code (`rlog_service_protocol`) is not part of the repository's
sources; where a claim depends on it, a definition is modelled from the spec
and marked as such in its doc comment.
-/

namespace Rlog

/-- A minimal JSON value universe, enough to carry the payloads the pipeline
moves around (`serde_json::Value` is only constructed, inspected as a string,
or copied unchanged on the verified paths). -/
inductive Json where
  | null : Json
  | bool : Bool → Json
  | num : Int → Json
  | str : String → Json
  deriving DecidableEq, Repr

/-! ## The indexer's `Batch` state (src/rlog-collector/src/index.rs:49-112) -/

/-- `enum Batch<T> { Single(Vec<T>), Splitted { to_send, remaining }, None }`. -/
inductive Batch (T : Type) where
  | Single : List T → Batch T
  | Splitted : List T → List T → Batch T
  | None : Batch T
  deriving DecidableEq, Repr

namespace Batch

variable {T : Type}

/-- `Batch::pop_elements` (index.rs:55-64).  The Rust method mutates `self`
and returns `Option<Vec<T>>`; here it returns the popped value together with
the state left behind by `std::mem::replace`. -/
def pop_elements : Batch T → Option (List T) × Batch T
  | .Single elements => (some elements, .None)
  | .Splitted to_send remaining => (some to_send, .Single remaining)
  | .None => (none, .None)

/-- `Batch::split_because_of_err` (index.rs:66-89).  `elements.split_off(len/2)`
leaves the first `len / 2` elements in `elements` and returns the tail.
The `panic!` arm (called while already `Splitted`) is modelled as `none`. -/
def split_because_of_err (b : Batch T) (elements : List T) : Option (Batch T) :=
  if elements.length ≤ 1 then
    -- last element cannot be splitted: if it causes the error it is discarded
    some b
  else
    let to_send := elements.take (elements.length / 2)
    let remaining := elements.drop (elements.length / 2)
    match b with
    | .Single single => some (.Splitted to_send (remaining ++ single))
    | .Splitted _ _ => none
    | .None => some (.Splitted to_send remaining)

/-- `Batch::push_elements` (index.rs:90-100). -/
def push_elements : Batch T → List T → Batch T
  | .Single existing, elements => .Single (existing ++ elements)
  | .Splitted to_send remaining, elements => .Splitted to_send (remaining ++ elements)
  | .None, elements => .Single elements

/-- `Batch::is_empty` (index.rs:102-111). -/
def is_empty : Batch T → Bool
  | .Single _ => false
  | .Splitted _ _ => false
  | .None => true

end Batch

/-! ## The indexer main loop (src/rlog-collector/src/index.rs:128-231) -/

/-- Rust's `str::contains`: `needle` occurs as a contiguous substring
(stated over the character lists so that concrete instances evaluate). -/
def containsSubstring (hay needle : String) : Bool :=
  (List.range (hay.data.length + 1)).any fun i => needle.data.isPrefixOf (hay.data.drop i)

/-- The marker quickwit puts in a 400 response for an oversized body. -/
def overlargeMarker : String := "The request payload is too large"

/-- What one `http_client.post(..).send().await` produced: a status code with
an optional body (`quickwit_response.text()` may fail, hence `Option`), or a
transport-level error. -/
inductive HttpOutcome where
  | response : Nat → Option String → HttpOutcome
  | transportError : HttpOutcome
  deriving DecidableEq, Repr

/-- Result of one pass of the indexer loop body. -/
inductive IterResult (T : Type) where
  | next : Batch T → IterResult T
  | exit : IterResult T
  | violation : IterResult T
  deriving DecidableEq, Repr

/-- One iteration of the `loop` in `launch_index_loop` (index.rs:131-227):
pop a batch; if one was pending, POST it and dispatch on the response
(200 / 429 / 400-with-marker / other / transport error); then, only when the
state is empty, `recv` the next batch (`recvd = none` models a closed
channel, which breaks the loop).  `IterResult.violation` is the `panic!` arm
of `split_because_of_err`. -/
def indexIter (st : Batch T) (outcome : HttpOutcome) (recvd : Option (List T)) :
    IterResult T :=
  match st.pop_elements with
  | (some batch, st') =>
    match outcome with
    | .response status body =>
      if status = 200 then
        -- accepted; fall through to the recv block
        if st'.is_empty then
          match recvd with
          | some newBatch => .next (st'.push_elements newBatch)
          | none => .exit
        else .next st'
      else if status = 429 then
        .next (st'.push_elements batch)
      else if status = 400 ∧ (body.map (containsSubstring · overlargeMarker)).getD false then
        match st'.split_because_of_err batch with
        | some st'' => .next st''
        | none => .violation
      else
        .next (st'.push_elements batch)
    | .transportError => .next (st'.push_elements batch)
  | (none, st') =>
    if st'.is_empty then
      match recvd with
      | some newBatch => .next (st'.push_elements newBatch)
      | none => .exit
    else .next st'

/-! ## Ingress loops and queue overflow
(src/rlog-shipper/src/gelf_server.rs:61-140, syslog_server.rs:43-100) -/

/-- The frame-processing loop of one GELF connection handler, at the
granularity of complete NUL-terminated frames: each element of `frames` is
the JSON decode result of one frame (`none` = `serde_json` error, logged and
skipped).  A decoded frame is `try_send`-ed to the bounded queue of capacity
`cap`; on `Full` the error counter is incremented and the handler `return`s
(gelf_server.rs:105-122), so the remaining frames are never examined.
Returns the final queue contents and error counter. -/
def gelfConnLoop (cap : Nat) : List (Option Json) → List Json → Nat → List Json × Nat
  | [], q, errs => (q, errs)
  | none :: rest, q, errs => gelfConnLoop cap rest q errs
  | some j :: rest, q, errs =>
    if q.length < cap then gelfConnLoop cap rest (q ++ [j]) errs
    else (q, errs + 1)

/-- The datagram loop of the syslog UDP server over already-parsed messages
(`syslog_loose::parse_message` is total).  An excluded message is skipped;
otherwise the message is `try_send`-ed; on `Full` the error counter is
incremented and the whole task `return`s (syslog_server.rs:80-94). -/
def syslogUdpLoop {M : Type} (cap : Nat) (excluded : M → Bool) :
    List M → List M → Nat → List M × Nat
  | [], q, errs => (q, errs)
  | d :: rest, q, errs =>
    if excluded d then syslogUdpLoop cap excluded rest q errs
    else if q.length < cap then syslogUdpLoop cap excluded rest (q ++ [d]) errs
    else (q, errs + 1)

/-- Modelled from the claim's words (drop-newest, then *continue* reading):
the syslog loop as the claim describes it, where after a `Full` the incoming
record alone is discarded and the loop keeps processing the remaining
datagrams. -/
def syslogUdpLoopClaim {M : Type} (cap : Nat) (excluded : M → Bool) :
    List M → List M → Nat → List M × Nat
  | [], q, errs => (q, errs)
  | d :: rest, q, errs =>
    if excluded d then syslogUdpLoopClaim cap excluded rest q errs
    else if q.length < cap then syslogUdpLoopClaim cap excluded rest (q ++ [d]) errs
    else syslogUdpLoopClaim cap excluded rest q (errs + 1)

/-! ## Syslog exclusion filters (src/rlog-shipper/src/syslog_server.rs:105-144) -/

/-- `SyslogExclusionFilter` (config.rs:66-74): three optional regexes; a
regex is abstracted as its Boolean match function. -/
structure SyslogExclusionFilter where
  appname : Option (String → Bool)
  facility : Option (String → Bool)
  message : Option (String → Bool)

/-- The parts of `syslog_loose::Message` that `filters::is_excluded`
consults: optional `appname`, optional `facility` (matched through its
`as_str()` form, hence a `String` here), and the always-present `msg`. -/
structure SyslogMessage where
  appname : Option String
  facility : Option String
  msg : String

/-- The body of the `for` loop of `is_excluded` (syslog_server.rs:119-141)
for one filter: `shall_exclude` starts undefined; each of the three blocks
updates it exactly as the source does (`and_then`/`or_else` chains). -/
def evalExclusionFilter (f : SyslogExclusionFilter) (m : SyslogMessage) : Option Bool :=
  let s1 : Option Bool :=
    match f.appname, m.appname with
    | some pattern, some appname => some (pattern appname)
    | _, _ => none
  let s2 : Option Bool :=
    match f.facility, m.facility with
    | some pattern, some facility =>
      match s1 with
      | some excl => some (excl && pattern facility)
      | none => some (pattern facility)
    | _, _ => s1
  match f.message with
  | some pattern =>
    match s2 with
    | some excl => some (excl && pattern m.msg)
    | none => some (pattern m.msg)
  | none => s2

/-- `filters::is_excluded` (syslog_server.rs:110-144).  The `for` loop ends
in an unconditional `return shall_exclude.unwrap_or(false)`, so only the
first filter of the list is ever consulted. -/
def is_excluded (filters : List SyslogExclusionFilter) (m : SyslogMessage) : Bool :=
  match filters with
  | [] => false
  | f :: _ => (evalExclusionFilter f m).getD false

/-- Claim-side reading: some field of the first filter is applicable (the
filter field is present and so is the corresponding message field;
`msg` is always present). -/
def firstFilterApplicable (f : SyslogExclusionFilter) (m : SyslogMessage) : Bool :=
  (f.appname.isSome && m.appname.isSome) ||
  (f.facility.isSome && m.facility.isSome) ||
  f.message.isSome

/-- Claim-side reading: the conjunction of the regex matches over the
applicable fields (inapplicable fields contribute `true`). -/
def firstFilterMatches (f : SyslogExclusionFilter) (m : SyslogMessage) : Bool :=
  (match f.appname, m.appname with
   | some pattern, some appname => pattern appname
   | _, _ => true) &&
  (match f.facility, m.facility with
   | some pattern, some facility => pattern facility
   | _, _ => true) &&
  (match f.message with
   | some pattern => pattern m.msg
   | none => true)

/-! ## Severities and facilities (src/rlog-grpc/src/lib.rs, generated enums) -/

/-- The wire `SyslogSeverity` enum (proto values 0..7, spec §6). -/
inductive SyslogSeverity where
  | Emergency | Alert | Critical | Error | Warning | Notice | Info | Debug
  deriving DecidableEq, Repr

/-- The proto discriminant of a `SyslogSeverity` (0=Emergency .. 7=Debug). -/
def SyslogSeverity.toNat : SyslogSeverity → Nat
  | .Emergency => 0 | .Alert => 1 | .Critical => 2 | .Error => 3
  | .Warning => 4 | .Notice => 5 | .Info => 6 | .Debug => 7

/-- `impl From<u64> for SyslogSeverity` (rlog-grpc/src/lib.rs:26-41):
"fallback to debug for anything else above 7". -/
def syslogSeverityFromU64 (value : Nat) : SyslogSeverity :=
  match value with
  | 0 => .Emergency
  | 1 => .Alert
  | 2 => .Critical
  | 3 => .Error
  | 4 => .Warning
  | 5 => .Notice
  | 6 => .Info
  | 7 => .Debug
  | _ => .Debug

/-- Modelled from the spec: the prost-generated accessor
`GelfLogLine::severity()` of the generated module `rlog_service_protocol`
(built from `proto/rlog-service.proto`; neither the proto nor the generated
Rust is under src/).  The spec's data model says the GELF `severity` is an
"integer 0..7; values outside default to `Debug`" and §6 says "values ≥8 map
to Debug"; the stored wire field is a raw `i32`. -/
def gelfSeverityAccessor (raw : Int) : SyslogSeverity :=
  if raw = 0 then .Emergency
  else if raw = 1 then .Alert
  else if raw = 2 then .Critical
  else if raw = 3 then .Error
  else if raw = 4 then .Warning
  else if raw = 5 then .Notice
  else if raw = 6 then .Info
  else .Debug

/-- The OpenTelemetry severity enum (rlog-grpc/src/lib.rs:46-73). -/
inductive OTELSeverity where
  | UNSPECIFIED
  | TRACE | TRACE2 | TRACE3 | TRACE4
  | DEBUG | DEBUG2 | DEBUG3 | DEBUG4
  | INFO | INFO2 | INFO3 | INFO4
  | WARN | WARN2 | WARN3 | WARN4
  | ERROR | ERROR2 | ERROR3 | ERROR4
  | FATAL | FATAL2 | FATAL3 | FATAL4
  deriving DecidableEq, Repr

/-- The numeric value of an `OTELSeverity` (its Rust discriminant,
`severity as u8`). -/
def OTELSeverity.toNat : OTELSeverity → Nat
  | .UNSPECIFIED => 0
  | .TRACE => 1 | .TRACE2 => 2 | .TRACE3 => 3 | .TRACE4 => 4
  | .DEBUG => 5 | .DEBUG2 => 6 | .DEBUG3 => 7 | .DEBUG4 => 8
  | .INFO => 9 | .INFO2 => 10 | .INFO3 => 11 | .INFO4 => 12
  | .WARN => 13 | .WARN2 => 14 | .WARN3 => 15 | .WARN4 => 16
  | .ERROR => 17 | .ERROR2 => 18 | .ERROR3 => 19 | .ERROR4 => 20
  | .FATAL => 21 | .FATAL2 => 22 | .FATAL3 => 23 | .FATAL4 => 24

/-- `Display for OTELSeverity` delegates to the derived `Debug`
(rlog-grpc/src/lib.rs:75-79), which prints the variant name. -/
def OTELSeverity.name : OTELSeverity → String
  | .UNSPECIFIED => "UNSPECIFIED"
  | .TRACE => "TRACE" | .TRACE2 => "TRACE2" | .TRACE3 => "TRACE3" | .TRACE4 => "TRACE4"
  | .DEBUG => "DEBUG" | .DEBUG2 => "DEBUG2" | .DEBUG3 => "DEBUG3" | .DEBUG4 => "DEBUG4"
  | .INFO => "INFO" | .INFO2 => "INFO2" | .INFO3 => "INFO3" | .INFO4 => "INFO4"
  | .WARN => "WARN" | .WARN2 => "WARN2" | .WARN3 => "WARN3" | .WARN4 => "WARN4"
  | .ERROR => "ERROR" | .ERROR2 => "ERROR2" | .ERROR3 => "ERROR3" | .ERROR4 => "ERROR4"
  | .FATAL => "FATAL" | .FATAL2 => "FATAL2" | .FATAL3 => "FATAL3" | .FATAL4 => "FATAL4"

/-- `impl From<SyslogSeverity> for OTELSeverity` (rlog-grpc/src/lib.rs:11-24). -/
def otelOfSyslog : SyslogSeverity → OTELSeverity
  | .Emergency => .FATAL4
  | .Alert => .FATAL3
  | .Critical => .FATAL
  | .Error => .ERROR
  | .Warning => .WARN
  | .Notice => .INFO3
  | .Info => .INFO
  | .Debug => .DEBUG

/-- The wire `SyslogFacility` enum, variants as listed by `to_grpc_facility`
(syslog_server.rs:247-275) and spec §6. -/
inductive SyslogFacility where
  | Kernel | User | Mail | Daemon | Auth | Syslog | Lpr | News | Uucp | Cron
  | Authpriv | Ftp | Ntp | Audit | Alert | Clockd
  | Local0 | Local1 | Local2 | Local3 | Local4 | Local5 | Local6 | Local7
  deriving DecidableEq, Repr

/-- Modelled from the spec: `SyslogFacility::as_str_name()` is
prost-generated code (module `rlog_service_protocol`, not under src/).  Spec
§6: "textual form lowercase when emitted to the backend: `local0`, `mail`,
etc.", and the repository's own integration test asserts `"local0"` and
`"mail"` (integration/tests/end_to_end.rs:192-193). -/
def SyslogFacility.as_str_name : SyslogFacility → String
  | .Kernel => "kernel" | .User => "user" | .Mail => "mail" | .Daemon => "daemon"
  | .Auth => "auth" | .Syslog => "syslog" | .Lpr => "lpr" | .News => "news"
  | .Uucp => "uucp" | .Cron => "cron" | .Authpriv => "authpriv" | .Ftp => "ftp"
  | .Ntp => "ntp" | .Audit => "audit" | .Alert => "alert" | .Clockd => "clockd"
  | .Local0 => "local0" | .Local1 => "local1" | .Local2 => "local2"
  | .Local3 => "local3" | .Local4 => "local4" | .Local5 => "local5"
  | .Local6 => "local6" | .Local7 => "local7"

/-! ## GELF `extra` construction
(`TryFrom<GelfLog> for LogLine`, src/rlog-shipper/src/gelf_server.rs:155-233).
A JSON object is modelled as an association list of its entries in iteration
order; the final `serde_json::to_string` of the accumulated `HashMap` is
abstracted away (a `HashMap`'s serialization order is unspecified), so the
`extra` field is modelled as the accumulated map itself. -/

/-- A leading `'_'` is stripped from a key (gelf_server.rs:205-209);
`key.starts_with('_')` is phrased over the key's character list so that
concrete instances evaluate. -/
def stripUnderscore (key : String) : String :=
  if key.data.head? = some '_' then key.drop 1 else key

/-- The reserved keys that are "set elsewhere" and never copied into `extra`
(gelf_server.rs:210-214); tested after stripping. -/
def reservedGelfKey (key : String) : Bool :=
  key == "host" || key == "timestamp" || key == "facility" || key == "version" ||
  key == "level" || key == "short_message" || key == "full_message"

/-- `HashMap::insert` on the association-list model: replace the value of an
existing key, otherwise append the new entry. -/
def hashInsert (m : List (String × Json)) (key : String) (value : Json) :
    List (String × Json) :=
  if m.any (fun kv => kv.1 == key) then
    m.map (fun kv => if kv.1 == key then (key, value) else kv)
  else m ++ [(key, value)]

/-- The body of the `for (key, value) in json_map` loop building `extra`
(gelf_server.rs:204-216): strip the underscore, skip the reserved keys,
insert everything else. -/
def gelfExtraStep (extra : List (String × Json)) (kv : String × Json) :
    List (String × Json) :=
  let key := stripUnderscore kv.1
  if reservedGelfKey key then extra else hashInsert extra key kv.2

/-- The `for (key, value) in json_map` loop building `extra`
(gelf_server.rs:203-217). -/
def gelfExtra (json_map : List (String × Json)) : List (String × Json) :=
  json_map.foldl gelfExtraStep []

/-- Modelled from the claim's words: the frame's key-value pairs after
stripping one leading underscore from each key and omitting the reserved
keys, every other key copied in order. -/
def gelfClaimExtra (json_map : List (String × Json)) : List (String × Json) :=
  json_map.filterMap fun kv =>
    let key := stripUnderscore kv.1
    if reservedGelfKey key then none else some (key, kv.2)

/-! ## The collector's `TryFrom<LogLine> for IndexLogEntry`
(src/rlog-collector/src/index.rs:239-329) -/

/-- `LogSystem` (index.rs:18-24). -/
inductive LogSystem where
  | Syslog : LogSystem
  | Gelf : LogSystem
  | Generic : String → LogSystem
  deriving DecidableEq, Repr

/-- `IndexLogEntry` (index.rs:27-47); `free_fields` is the flattened map of
extra fields, modelled as an association list. -/
structure IndexLogEntry where
  message : String
  timestamp : Int
  hostname : String
  service_name : String
  severity_text : String
  severity_number : Nat
  log_system : LogSystem
  free_fields : List (String × Json)
  deriving DecidableEq, Repr

/-- The GELF variant of the wire `LogLine`: `severity` is the raw `i32` of
the proto field; `extra` is the JSON object carried as a string on the wire,
modelled here already parsed into an association list (the collector parses
it back with `serde_json::from_str`, index.rs:253-255). -/
structure GelfLogLine where
  short_message : String
  full_message : Option String
  severity : Int
  extra : List (String × Json)
  deriving DecidableEq, Repr

/-- The `Gelf` arm of `TryFrom<LogLine> for IndexLogEntry`
(index.rs:250-274), given the record's `host` and the already-computed
`timestamp_ms = seconds * 1000 + nanos / 1_000_000`. -/
def indexEntryOfGelf (hostname : String) (timestamp_ms : Int) (gelf : GelfLogLine) :
    IndexLogEntry :=
  let severity := otelOfSyslog (gelfSeverityAccessor gelf.severity)
  let message := gelf.full_message.getD gelf.short_message
  -- `extra.remove("service")`: the removed value names the service when it
  -- is a JSON string, else "unknown"
  let service_name :=
    match gelf.extra.lookup "service" with
    | some (Json.str s) => s
    | _ => "unknown"
  { message := message
    timestamp := timestamp_ms
    hostname := hostname
    service_name := service_name
    severity_text := severity.name
    severity_number := severity.toNat
    log_system := .Gelf
    free_fields := gelf.extra.eraseP (fun kv => kv.1 == "service") }

/-- The syslog variant of the wire `LogLine`.  The shipper always writes
in-range enum discriminants (syslog_server.rs:225-243), so `facility` and
`severity` are modelled as the enums the generated accessors return. -/
structure SyslogLogLine where
  facility : SyslogFacility
  severity : SyslogSeverity
  appname : Option String
  proc_pid : Option Nat
  proc_name : Option String
  msgid : Option String
  msg : String
  deriving DecidableEq, Repr

/-- The `Syslog` arm of `TryFrom<LogLine> for IndexLogEntry`
(index.rs:275-305). -/
def indexEntryOfSyslog (hostname : String) (timestamp_ms : Int) (syslog : SyslogLogLine) :
    IndexLogEntry :=
  let severity := otelOfSyslog syslog.severity
  let free_fields : List (String × Json) :=
    [("facility", .str syslog.facility.as_str_name)]
  let free_fields :=
    match syslog.proc_pid with
    | some pid => free_fields ++ [("proc_pid", .num pid)]
    | none => free_fields
  let free_fields :=
    match syslog.proc_name with
    | some proc_name => free_fields ++ [("proc_name", .str proc_name)]
    | none => free_fields
  let free_fields :=
    match syslog.msgid with
    | some msgid => free_fields ++ [("msgid", .str msgid)]
    | none => free_fields
  { message := syslog.msg
    timestamp := timestamp_ms
    hostname := hostname
    service_name := syslog.appname.getD "_syslog"
    severity_text := severity.name
    severity_number := severity.toNat
    log_system := .Syslog
    free_fields := free_fields }

/-! ## Shipper metrics snapshot (src/rlog-shipper/src/metrics.rs:21-46) -/

/-- The wire `Metrics` message: hostname plus three string → u64 maps, each
modelled as an association list in insertion order (the three inserted keys
are distinct, so the `HashMap` is faithfully represented). -/
structure Metrics where
  hostname : String
  queue_count : List (String × Nat)
  processed_count : List (String × Nat)
  error_count : List (String × Nat)
  deriving DecidableEq, Repr

/-- `to_grpc_metrics` (metrics.rs:21-46), over the nine counter values read
from the atomics.  The key literals are exactly the ones the source writes:
note `"glef_in"` (sic) and the absence of any `files_in` entry. -/
def to_grpc_metrics (hostname : String)
    (gelf_queue syslog_queue shipper_queue
      gelf_processed syslog_processed shipper_processed
      gelf_error syslog_error shipper_error : Nat) : Metrics :=
  { hostname := hostname
    queue_count :=
      [("glef_in", gelf_queue), ("syslog_in", syslog_queue), ("grpc_out", shipper_queue)]
    processed_count :=
      [("glef_in", gelf_processed), ("syslog_in", syslog_processed),
        ("grpc_out", shipper_processed)]
    error_count :=
      [("glef_in", gelf_error), ("syslog_in", syslog_error), ("grpc_out", shipper_error)] }

/-! ## The file tailer (src/rlog-shipper/src/log_file.rs) -/

/-- `FieldType` (config.rs:143-150). -/
inductive FieldType where
  | Timestamp | Number | String | SyslogLevelText
  deriving DecidableEq, Repr

/-- `FieldMapping` (config.rs:136-141). -/
structure FieldMapping where
  name : String
  field_type : FieldType
  deriving DecidableEq, Repr

/-- `GenericLog` (generic_log.rs:9-17); the chrono timestamp is abstracted
to an integer, the JSON `extra` object to an association list. -/
structure GenericLog where
  host : String
  timestamp : Int
  severity : SyslogSeverity
  extra : List (String × Json)
  log_system : String
  message : String
  service_name : String
  deriving DecidableEq, Repr

/-- Modelled from the spec: `SyslogSeverity::from_str_name` is
prost-generated code (not under src/); per the spec's `SyslogLevelText`
coercion it maps a severity name to the enum.  The uppercase names mirror
the enum variants of §6 (the integration test drives it with `"INFO"`). -/
def syslogSeverityFromStrName (s : String) : Option SyslogSeverity :=
  if s = "EMERGENCY" then some .Emergency
  else if s = "ALERT" then some .Alert
  else if s = "CRITICAL" then some .Critical
  else if s = "ERROR" then some .Error
  else if s = "WARNING" then some .Warning
  else if s = "NOTICE" then some .Notice
  else if s = "INFO" then some .Info
  else if s = "DEBUG" then some .Debug
  else none

/-- Rust's `str::trim`, phrased over the character list so that concrete
instances evaluate. -/
def trimChars (s : String) : String :=
  String.mk (((s.data.dropWhile Char.isWhitespace).reverse.dropWhile
    Char.isWhitespace).reverse)

/-- The impure or external ingredients of `FileParseConfig::to_log`,
abstracted: the `parse_timestamp` function (ISO8601/RFC3339/RFC2822 via
external crates), the `to_rfc3339` formatter, `serde_json` number parsing,
the lazily-read system `HOSTNAME`, and `Utc::now()`. -/
structure ParseEnv where
  parseTs : String → Option Int
  fmtTs : Int → String
  parseNum : String → Option Int
  hostname : String
  now : Int

/-- `FileParseConfig::Regex { pattern, mapping }` (config.rs, as matched by
log_file.rs:96): the regex engine is abstracted as the function giving the
capture groups `1..N` of a matching line. -/
structure FileParseConfig where
  pattern : String → Option (List String)
  mapping : List FieldMapping

/-- The accumulator of the `for i in 0..mapping.len()` loop of `to_log`
(log_file.rs:101-161). -/
structure ToLogAcc where
  map : List (String × Json)
  host : Option String
  timestamp : Option Int
  service_name : Option String
  severity : Option SyslogSeverity
  message : Option String

/-- The mapping loop of `to_log` (log_file.rs:109-161): the `i`-th mapping
entry consumes capture group `i+1` (`none` = a failure `return` of the Rust
loop: missing capture group, unparseable timestamp or number).  Note that a
`severity` field assigns `from_str_name`'s `Option` directly, and that the
special names `continue` before any `field_type` coercion. -/
def processMapping (env : ParseEnv) :
    List FieldMapping → List String → ToLogAcc → Option ToLogAcc
  | [], _, acc => some acc
  | _ :: _, [], _ => none
  | fm :: rest, capture :: caps, acc =>
    let field_value := trimChars capture
    if fm.name = "timestamp" then
      match env.parseTs field_value with
      | some ts => processMapping env rest caps { acc with timestamp := some ts }
      | none => none
    else if fm.name = "host" then
      processMapping env rest caps { acc with host := some field_value }
    else if fm.name = "message" then
      processMapping env rest caps { acc with message := some field_value }
    else if fm.name = "service_name" then
      processMapping env rest caps { acc with service_name := some field_value }
    else if fm.name = "severity" then
      processMapping env rest caps
        { acc with severity := syslogSeverityFromStrName (trimChars field_value) }
    else
      match
        (match fm.field_type with
          | .String => some (Json.str field_value)
          | .Timestamp => (env.parseTs field_value).map fun t => Json.str (env.fmtTs t)
          | .Number => (env.parseNum field_value).map Json.num
          | .SyslogLevelText =>
            some (Json.num
              ((syslogSeverityFromStrName (trimChars field_value)).getD .Info).toNat))
      with
      | some v => processMapping env rest caps { acc with map := hashInsert acc.map fm.name v }
      | none => none

/-- `FileParseConfig::to_log` (log_file.rs:94-175): apply the pattern,
run the mapping loop, then build the `GenericLog` with the promoted fields
and their defaults; `message` is required; `log_system` is always
`"file_in"`. -/
def to_log (env : ParseEnv) (cfg : FileParseConfig) (line file : String) :
    Option GenericLog :=
  match cfg.pattern line with
  | none => none
  | some caps =>
    match processMapping env cfg.mapping caps ⟨[], none, none, none, none, none⟩ with
    | none => none
    | some acc =>
      match acc.message with
      | none => none
      | some msg =>
        some
          { host := acc.host.getD env.hostname
            timestamp := acc.timestamp.getD env.now
            severity := acc.severity.getD .Info
            log_system := "file_in"
            message := msg
            extra := acc.map
            service_name := acc.service_name.getD file }

/-- The task spawned by `watch_log` (log_file.rs:33-81), at the granularity
of line events: the async block is a single `select!` with **no enclosing
loop**, so at most the first line event is handled (config lookup for the
path — `none` means the path left the config and the task returns — then
parse and send), after which the block ends ("Watch task stopped!").
`parse` is the `to_log` closure for the watched path's config. -/
def watchLogTask (parse : Option (String → Option GenericLog)) (lines : List String) :
    List GenericLog :=
  match lines with
  | [] => []
  | line :: _ =>
    match parse with
    | none => []
    | some to_log_fn => (to_log_fn line).toList

/-- Modelled from the spec: the tailer "follows appended lines (tail -F
semantics)" and, per the claim, processes every successive appended line
the same way as the first, until shutdown or until the path disappears
from the config. -/
def watchLogSpecTask (parse : Option (String → Option GenericLog))
    (lines : List String) : List GenericLog :=
  match parse with
  | none => []
  | some to_log_fn => lines.filterMap to_log_fn

end Rlog

namespace Rlog

/-! ## Theorems about the Batch state machine -/

/-- `split_because_of_err` succeeds (no `panic!`) on any state that is not
`Splitted` — in the loop those are exactly the residual states of
`pop_elements`. -/
theorem split_because_of_err_of_pop_residual {T : Type} (b : Batch T) (xs : List T)
    (h : ∀ ts rm, b ≠ .Splitted ts rm) :
    ∃ st', b.split_because_of_err xs = some st' := by
  by_cases hx : xs.length ≤ 1
  · exact ⟨b, by simp [Batch.split_because_of_err, hx]⟩
  · cases b with
    | Single s =>
      exact ⟨.Splitted (xs.take (xs.length / 2)) (xs.drop (xs.length / 2) ++ s),
        by simp [Batch.split_because_of_err, hx]⟩
    | Splitted ts rm => exact absurd rfl (h ts rm)
    | None =>
      exact ⟨.Splitted (xs.take (xs.length / 2)) (xs.drop (xs.length / 2)),
        by simp [Batch.split_because_of_err, hx]⟩

/-- **C1.** When the backend answers 400 with a body containing the
overlarge-payload marker, the loop calls `split_because_of_err` on the batch
`b` it just popped.  For `|b| ≥ 2` the first `⌊|b|/2⌋` elements (in order)
become `to_send` of the next state and the second half is joined with any
existing `remaining`; for `|b| ≤ 1` the single element is discarded: the
residual state is kept unchanged, so the element is never re-enqueued.  The
two start states are exactly those `pop_elements` can leave behind with a
popped batch: `Single b` (popped to `None`) and `Splitted b rem` (popped to
`Single rem`). -/
theorem index_split_on_overlarge_400 (T : Type) (b rem : List T) (body : String)
    (recvd : Option (List T)) (hmark : containsSubstring body overlargeMarker = true) :
    (2 ≤ b.length →
      indexIter (.Single b) (.response 400 (some body)) recvd =
        .next (.Splitted (b.take (b.length / 2)) (b.drop (b.length / 2))) ∧
      indexIter (.Splitted b rem) (.response 400 (some body)) recvd =
        .next (.Splitted (b.take (b.length / 2)) (b.drop (b.length / 2) ++ rem)) ∧
      b.take (b.length / 2) ++ b.drop (b.length / 2) = b) ∧
    (b.length ≤ 1 →
      indexIter (.Single b) (.response 400 (some body)) recvd = .next .None ∧
      indexIter (.Splitted b rem) (.response 400 (some body)) recvd =
        .next (.Single rem)) := by
  constructor
  · intro h2
    have hgt : ¬ b.length ≤ 1 := by omega
    refine ⟨?_, ?_, List.take_append_drop _ _⟩ <;>
      simp [indexIter, Batch.pop_elements, Batch.split_because_of_err, hmark, hgt]
  · intro h1
    constructor <;>
      simp [indexIter, Batch.pop_elements, Batch.split_because_of_err, hmark, h1]

/-- Closed witness for `index_split_on_overlarge_400` at `b = [1,2,3]`,
`rem = [9]`, a body carrying the marker. -/
theorem index_split_on_overlarge_400_witness :
    (2 ≤ ([1, 2, 3] : List Nat).length →
      indexIter (.Single [1, 2, 3])
          (.response 400 (some "oops: The request payload is too large!")) none =
        .next (.Splitted ([1, 2, 3].take 1) ([1, 2, 3].drop 1)) ∧
      indexIter (.Splitted [1, 2, 3] [9])
          (.response 400 (some "oops: The request payload is too large!")) none =
        .next (.Splitted ([1, 2, 3].take 1) ([1, 2, 3].drop 1 ++ [9])) ∧
      [1, 2, 3].take 1 ++ [1, 2, 3].drop 1 = [1, 2, 3]) ∧
    (([1, 2, 3] : List Nat).length ≤ 1 →
      indexIter (.Single [1, 2, 3])
          (.response 400 (some "oops: The request payload is too large!")) none =
        .next .None ∧
      indexIter (.Splitted [1, 2, 3] [9])
          (.response 400 (some "oops: The request payload is too large!")) none =
        .next (.Single [9])) :=
  index_split_on_overlarge_400 Nat [1, 2, 3] [9]
    "oops: The request payload is too large!" none (by decide)

/-- **C2.** Under the main loop's usage — `pop_elements` before each send,
`split_because_of_err` only on the just-popped batch — the `panic!` branch is
unreachable: no iteration of the loop, from any state at all, produces
`IterResult.violation`; and indeed `pop_elements` never leaves a `Splitted`
state behind, so the `Batch` never accumulates more than one outstanding
split (the two vectors `to_send` and `remaining`). -/
theorem index_loop_never_panics (T : Type) (st : Batch T) (outcome : HttpOutcome)
    (recvd : Option (List T)) :
    indexIter st outcome recvd ≠ .violation ∧
    ∀ ts rm : List T, (st.pop_elements).2 ≠ .Splitted ts rm := by
  constructor
  · cases st with
    | None =>
      cases outcome <;> simp only [indexIter, Batch.pop_elements, Batch.is_empty] <;>
        cases recvd <;> simp
    | Single b =>
      cases outcome with
      | transportError => simp [indexIter, Batch.pop_elements]
      | response status body =>
        simp only [indexIter, Batch.pop_elements]
        split
        · simp only [Batch.is_empty]
          split
          · cases recvd <;> simp
          · simp
        · split
          · simp
          · split
            · rcases split_because_of_err_of_pop_residual (Batch.None : Batch T) b
                (by intro ts rm h; exact Batch.noConfusion h) with ⟨st2, hs⟩
              rw [hs]
              simp
            · simp
    | Splitted ts rm =>
      cases outcome with
      | transportError => simp [indexIter, Batch.pop_elements]
      | response status body =>
        simp only [indexIter, Batch.pop_elements]
        split
        · simp only [Batch.is_empty]
          split
          · cases recvd <;> simp
          · simp
        · split
          · simp
          · split
            · rcases split_because_of_err_of_pop_residual (Batch.Single rm) ts
                (by intro ts2 rm2 h; exact Batch.noConfusion h) with ⟨st2, hs⟩
              rw [hs]
              simp
            · simp
  · intro ts rm
    cases st <;> simp [Batch.pop_elements]

/-- Structural facts about the syslog UDP loop: the error counter grows by at
most one over the task's whole life (the task returns at the first `Full`),
and the queue never exceeds its capacity; when the counter did grow, the
queue was exactly full and was left untouched (drop-newest). -/
theorem syslogUdpLoop_bounds {M : Type} (cap : Nat) (excl : M → Bool) :
    ∀ (ds : List M) (q : List M) (errs : Nat), q.length ≤ cap →
      (syslogUdpLoop cap excl ds q errs).2 ≤ errs + 1 ∧
      (syslogUdpLoop cap excl ds q errs).1.length ≤ cap ∧
      ((syslogUdpLoop cap excl ds q errs).2 = errs + 1 →
        (syslogUdpLoop cap excl ds q errs).1.length = cap) := by
  intro ds
  induction ds with
  | nil =>
    intro q errs hq
    refine ⟨?_, ?_, ?_⟩ <;> simp_all [syslogUdpLoop, gelfConnLoop]
  | cons d rest ih =>
    intro q errs hq
    by_cases he : excl d
    · simpa [syslogUdpLoop, he] using ih q errs hq
    · by_cases hlen : q.length < cap
      · simpa [syslogUdpLoop, he, hlen] using
          ih (q ++ [d]) errs (by simpa using hlen)
      · have hcap : q.length = cap := by omega
        simp [syslogUdpLoop, he, hlen, hcap]

/-- As `syslogUdpLoop_bounds`, for the GELF connection handler loop. -/
theorem gelfConnLoop_bounds (cap : Nat) :
    ∀ (fs : List (Option Json)) (q : List Json) (errs : Nat), q.length ≤ cap →
      (gelfConnLoop cap fs q errs).2 ≤ errs + 1 ∧
      (gelfConnLoop cap fs q errs).1.length ≤ cap ∧
      ((gelfConnLoop cap fs q errs).2 = errs + 1 →
        (gelfConnLoop cap fs q errs).1.length = cap) := by
  intro fs
  induction fs with
  | nil =>
    intro q errs hq
    refine ⟨?_, ?_, ?_⟩ <;> simp_all [syslogUdpLoop, gelfConnLoop]
  | cons f rest ih =>
    intro q errs hq
    cases f with
    | none => simpa [gelfConnLoop] using ih q errs hq
    | some j =>
      by_cases hlen : q.length < cap
      · simpa [gelfConnLoop, hlen] using ih (q ++ [j]) errs (by simpa using hlen)
      · have hcap : q.length = cap := by omega
        simp [gelfConnLoop, hlen, hcap]

/-- **C4 (counterexample).** The claim says the ingress keeps reading after a
`Full`; the code `return`s instead.  With capacity 1 and three non-excluded
datagrams, the code's loop stops at the second datagram with one error
counted, while the claimed drop-newest-and-continue behaviour would count
two errors for the two dropped datagrams. -/
theorem syslog_ingress_terminates_on_full_cex :
    syslogUdpLoop 1 (fun _ => false) [1, 2, 3] ([] : List Nat) 0 ≠
      syslogUdpLoopClaim 1 (fun _ => false) [1, 2, 3] ([] : List Nat) 0 ∧
    syslogUdpLoop 1 (fun _ => false) [1, 2, 3] ([] : List Nat) 0 = ([1], 1) ∧
    syslogUdpLoopClaim 1 (fun _ => false) [1, 2, 3] ([] : List Nat) 0 = ([1], 2) := by
  refine ⟨by decide, by decide, by decide⟩

/-- **C4 (amended).** For both ingresses, on a `Full` from `try_send` only
the incoming record is discarded and the error counter is incremented — but
the GELF connection handler / syslog UDP task then `return`s, so later
frames or datagrams are not processed: over the task's life the error
counter grows by at most one, the queue never exceeds its capacity, and
when the `Full` was hit the queue was exactly at capacity and left
unchanged. -/
theorem ingress_overflow_drop_newest_then_return {M : Type} (cap : Nat)
    (excl : M → Bool) (ds : List M) (fs : List (Option Json))
    (q : List M) (qj : List Json) (errs errsj : Nat)
    (hq : q.length ≤ cap) (hqj : qj.length ≤ cap) :
    (syslogUdpLoop cap excl ds q errs).2 ≤ errs + 1 ∧
    (syslogUdpLoop cap excl ds q errs).1.length ≤ cap ∧
    ((syslogUdpLoop cap excl ds q errs).2 = errs + 1 →
      (syslogUdpLoop cap excl ds q errs).1.length = cap) ∧
    (gelfConnLoop cap fs qj errsj).2 ≤ errsj + 1 ∧
    (gelfConnLoop cap fs qj errsj).1.length ≤ cap ∧
    ((gelfConnLoop cap fs qj errsj).2 = errsj + 1 →
      (gelfConnLoop cap fs qj errsj).1.length = cap) := by
  obtain ⟨h1, h2, h3⟩ := syslogUdpLoop_bounds cap excl ds q errs hq
  obtain ⟨h4, h5, h6⟩ := gelfConnLoop_bounds cap fs qj errsj hqj
  exact ⟨h1, h2, h3, h4, h5, h6⟩

/-- Closed witness for `ingress_overflow_drop_newest_then_return`:
capacity 1, datagrams `[1,2,3]`, frames `[some (num 1), some (num 2)]`,
empty queues. -/
theorem ingress_overflow_drop_newest_then_return_witness :
    (syslogUdpLoop 1 (fun _ => false) [1, 2, 3] ([] : List Nat) 0).2 ≤ 0 + 1 ∧
    (syslogUdpLoop 1 (fun _ => false) [1, 2, 3] ([] : List Nat) 0).1.length ≤ 1 ∧
    ((syslogUdpLoop 1 (fun _ => false) [1, 2, 3] ([] : List Nat) 0).2 = 0 + 1 →
      (syslogUdpLoop 1 (fun _ => false) [1, 2, 3] ([] : List Nat) 0).1.length = 1) ∧
    (gelfConnLoop 1 [some (.num 1), some (.num 2)] [] 0).2 ≤ 0 + 1 ∧
    (gelfConnLoop 1 [some (.num 1), some (.num 2)] [] 0).1.length ≤ 1 ∧
    ((gelfConnLoop 1 [some (.num 1), some (.num 2)] [] 0).2 = 0 + 1 →
      (gelfConnLoop 1 [some (.num 1), some (.num 2)] [] 0).1.length = 1) :=
  ingress_overflow_drop_newest_then_return 1 (fun _ => false) [1, 2, 3]
    [some (.num 1), some (.num 2)] [] [] 0 0 (by decide) (by decide)

/-- **C5.** `is_excluded` consults only the first filter: an empty list
excludes nothing, the filters after the first never change the result, and
with a first filter `f` the message is excluded exactly when some field of
`f` is applicable and every applicable field's regex matches. -/
theorem is_excluded_first_filter_only (f : SyslogExclusionFilter)
    (rest rest' : List SyslogExclusionFilter) (m : SyslogMessage) :
    is_excluded [] m = false ∧
    is_excluded (f :: rest) m = is_excluded (f :: rest') m ∧
    is_excluded (f :: rest) m = (firstFilterApplicable f m && firstFilterMatches f m) := by
  refine ⟨rfl, rfl, ?_⟩
  simp only [is_excluded, evalExclusionFilter, firstFilterApplicable, firstFilterMatches]
  rcases hfa : f.appname with _ | pa <;> rcases hma : m.appname with _ | a <;>
    rcases hff : f.facility with _ | pf <;> rcases hmf : m.facility with _ | fa <;>
      rcases hfm : f.message with _ | pm <;>
        simp [Bool.and_assoc]

/-- **C6.** A GELF record whose raw severity lies outside `0..7` (every
negative value and every value ≥ 8) is read back as `Debug` by the severity
accessor, so the collector's `IndexLogEntry` carries the OTel rendering of
`Debug`: `severity_text = "DEBUG"`, `severity_number = 5`. -/
theorem gelf_out_of_range_severity_is_debug (hostname : String) (ts : Int)
    (gelf : GelfLogLine) (h : gelf.severity < 0 ∨ 8 ≤ gelf.severity) :
    gelfSeverityAccessor gelf.severity = .Debug ∧
    (indexEntryOfGelf hostname ts gelf).severity_text = "DEBUG" ∧
    (indexEntryOfGelf hostname ts gelf).severity_number = 5 := by
  have hacc : gelfSeverityAccessor gelf.severity = .Debug := by
    have h0 : gelf.severity ≠ 0 := by omega
    have h1 : gelf.severity ≠ 1 := by omega
    have h2 : gelf.severity ≠ 2 := by omega
    have h3 : gelf.severity ≠ 3 := by omega
    have h4 : gelf.severity ≠ 4 := by omega
    have h5 : gelf.severity ≠ 5 := by omega
    have h6 : gelf.severity ≠ 6 := by omega
    simp [gelfSeverityAccessor, h0, h1, h2, h3, h4, h5, h6]
  refine ⟨hacc, ?_, ?_⟩ <;>
    simp [indexEntryOfGelf, hacc, otelOfSyslog, OTELSeverity.name, OTELSeverity.toNat]

/-- Closed witness for `gelf_out_of_range_severity_is_debug` at severity 9. -/
theorem gelf_out_of_range_severity_is_debug_witness :
    gelfSeverityAccessor (9 : Int) = .Debug ∧
    (indexEntryOfGelf "h" 0 ⟨"s", none, 9, []⟩).severity_text = "DEBUG" ∧
    (indexEntryOfGelf "h" 0 ⟨"s", none, 9, []⟩).severity_number = 5 :=
  gelf_out_of_range_severity_is_debug "h" 0 ⟨"s", none, 9, []⟩ (Or.inr (by decide))

/-- **C7.** For every syslog `LogLine`, `free_fields["facility"]` is the
facility's textual name, that name is lowercase (`Mail ↦ "mail"`,
`Local0 ↦ "local0"`, and in general made of lowercase letters and digits
only), and each of `proc_pid`, `proc_name`, `msgid` appears in
`free_fields` exactly when the corresponding optional field of the
`LogLine` is present. -/
theorem syslog_free_fields_facility_and_optionals (hostname : String) (ts : Int)
    (syslog : SyslogLogLine) :
    (indexEntryOfSyslog hostname ts syslog).free_fields.lookup "facility" =
      some (.str syslog.facility.as_str_name) ∧
    SyslogFacility.as_str_name .Mail = "mail" ∧
    SyslogFacility.as_str_name .Local0 = "local0" ∧
    (∀ f : SyslogFacility,
      (f.as_str_name.data.all fun c => c.isLower || c.isDigit) = true) ∧
    ((indexEntryOfSyslog hostname ts syslog).free_fields.lookup "proc_pid").isSome =
      syslog.proc_pid.isSome ∧
    ((indexEntryOfSyslog hostname ts syslog).free_fields.lookup "proc_name").isSome =
      syslog.proc_name.isSome ∧
    ((indexEntryOfSyslog hostname ts syslog).free_fields.lookup "msgid").isSome =
      syslog.msgid.isSome := by
  refine ⟨?_, rfl, rfl, fun f => by cases f <;> decide, ?_, ?_, ?_⟩
  all_goals
    rcases hp : syslog.proc_pid with _ | pid <;>
      rcases hn : syslog.proc_name with _ | nm <;>
        rcases hm : syslog.msgid with _ | mi <;>
          simp [indexEntryOfSyslog, List.lookup, hp, hn, hm]

/-- `HashMap::insert` appends when the key is absent from the map. -/
theorem hashInsert_of_not_mem (m : List (String × Json)) (key : String) (value : Json)
    (h : ∀ kv ∈ m, kv.1 ≠ key) :
    hashInsert m key value = m ++ [(key, value)] := by
  have hany : m.any (fun kv => kv.1 == key) = false := by
    simp only [List.any_eq_false]
    intro kv hkv
    simpa using h kv hkv
  simp [hashInsert, hany]

/-- The `extra`-building fold, started from any accumulator whose keys stay
distinct from everything still to come, appends exactly the
stripped-and-filtered entries. -/
theorem gelfExtra_foldl (json_map : List (String × Json)) :
    ∀ acc : List (String × Json),
      ((acc ++ gelfClaimExtra json_map).map Prod.fst).Nodup →
      json_map.foldl gelfExtraStep acc = acc ++ gelfClaimExtra json_map := by
  induction json_map with
  | nil => intro acc _; simp [gelfClaimExtra]
  | cons kv rest ih =>
    intro acc h
    by_cases hres : reservedGelfKey (stripUnderscore kv.1)
    · have hclaim : gelfClaimExtra (kv :: rest) = gelfClaimExtra rest := by
        simp [gelfClaimExtra, hres]
      rw [hclaim] at h
      rw [List.foldl_cons, show gelfExtraStep acc kv = acc by simp [gelfExtraStep, hres],
        ih acc h, hclaim]
    · have hclaim : gelfClaimExtra (kv :: rest) =
          (stripUnderscore kv.1, kv.2) :: gelfClaimExtra rest := by
        simp [gelfClaimExtra, hres]
      rw [hclaim] at h
      have hnotin : ∀ kv' ∈ acc, kv'.1 ≠ stripUnderscore kv.1 := by
        intro kv' hkv' heq
        have hsplit := h
        rw [List.map_append, List.nodup_append] at hsplit
        exact hsplit.2.2 (heq ▸ List.mem_map_of_mem Prod.fst hkv') (by simp)
      have hins := hashInsert_of_not_mem acc (stripUnderscore kv.1) kv.2 hnotin
      have hstep : gelfExtraStep acc kv = acc ++ [(stripUnderscore kv.1, kv.2)] := by
        rw [gelfExtraStep]
        simp only [hres, if_false]
        exact hins
      have h' : (((acc ++ [(stripUnderscore kv.1, kv.2)]) ++ gelfClaimExtra rest).map
          Prod.fst).Nodup := by
        rw [show (acc ++ [(stripUnderscore kv.1, kv.2)]) ++ gelfClaimExtra rest =
            acc ++ (stripUnderscore kv.1, kv.2) :: gelfClaimExtra rest by simp]
        exact h
      rw [List.foldl_cons, hstep, ih (acc ++ [(stripUnderscore kv.1, kv.2)]) h', hclaim]
      simp

/-- **C8.** When the stripped non-reserved keys of the frame are pairwise
distinct (duplicates cannot arise from a JSON object unless two distinct
keys collide after underscore-stripping), the `extra` map built by the GELF
ingress is exactly the frame's entries with one leading underscore stripped
from each key and the reserved keys
`host|timestamp|facility|version|level|short_message|full_message` omitted,
every other entry copied unchanged and in order. -/
theorem gelf_extra_strips_and_omits (json_map : List (String × Json))
    (h : ((gelfClaimExtra json_map).map Prod.fst).Nodup) :
    gelfExtra json_map = gelfClaimExtra json_map := by
  have := gelfExtra_foldl json_map [] (by simpa using h)
  simpa [gelfExtra] using this

/-- Closed witness for `gelf_extra_strips_and_omits` on the claim's example
frame: `_custom_field` loses the underscore, `custom_int` is kept unchanged,
and the reserved keys are omitted. -/
theorem gelf_extra_strips_and_omits_witness :
    gelfExtra [("_custom_field", .str "x"), ("custom_int", .num 9),
        ("short_message", .str "s"), ("full_message", .str "L"),
        ("host", .str "h"), ("level", .num 3)] =
      [("custom_field", Json.str "x"), ("custom_int", Json.num 9)] :=
  (gelf_extra_strips_and_omits
      [("_custom_field", .str "x"), ("custom_int", .num 9),
        ("short_message", .str "s"), ("full_message", .str "L"),
        ("host", .str "h"), ("level", .num 3)] (by decide)).trans (by decide)

/-- **C9.** What `to_grpc_metrics` actually produces: each of the three maps
is keyed by `"glef_in"` (sic), `"syslog_in"` and `"grpc_out"` — the key
`"gelf_in"` of the claim is misspelled in the source and the claimed
`"files_in"` entry does not exist (metrics.rs has no `FILES_*` counters,
although lib.rs imports them from this very module). -/
theorem to_grpc_metrics_keys (hostname : String)
    (a b c d e f g h i : Nat) :
    (to_grpc_metrics hostname a b c d e f g h i).queue_count.map Prod.fst =
      ["glef_in", "syslog_in", "grpc_out"] ∧
    (to_grpc_metrics hostname a b c d e f g h i).processed_count.map Prod.fst =
      ["glef_in", "syslog_in", "grpc_out"] ∧
    (to_grpc_metrics hostname a b c d e f g h i).error_count.map Prod.fst =
      ["glef_in", "syslog_in", "grpc_out"] ∧
    "gelf_in" ∉ (to_grpc_metrics hostname a b c d e f g h i).queue_count.map Prod.fst ∧
    "files_in" ∉ (to_grpc_metrics hostname a b c d e f g h i).queue_count.map Prod.fst := by
  refine ⟨rfl, rfl, rfl, ?_, ?_⟩ <;> simp [to_grpc_metrics]

/-- **C3.** Evaluation of the tailer's task at a failing input: a config
that maps one capture group to `message`, and two appended lines both
matched by the pattern.  The code's task (no loop around its `select!`)
emits a `GenericLog` only for the first line and then stops, while the
spec's tail-F behaviour emits one per line; the logs that are emitted do
carry `log_system = "file_in"`. -/
theorem watch_log_processes_only_first_line :
    watchLogTask
        (some fun line =>
          to_log ⟨fun _ => none, fun _ => "", fun _ => none, "host0", 0⟩
            ⟨fun s =>
                if s = "A one" then some ["one"]
                else if s = "A two" then some ["two"] else none,
              [⟨"message", FieldType.String⟩]⟩ line "/var/log/app.log")
        ["A one", "A two"] =
      [⟨"host0", 0, .Info, [], "file_in", "one", "/var/log/app.log"⟩] ∧
    watchLogSpecTask
        (some fun line =>
          to_log ⟨fun _ => none, fun _ => "", fun _ => none, "host0", 0⟩
            ⟨fun s =>
                if s = "A one" then some ["one"]
                else if s = "A two" then some ["two"] else none,
              [⟨"message", FieldType.String⟩]⟩ line "/var/log/app.log")
        ["A one", "A two"] =
      [⟨"host0", 0, .Info, [], "file_in", "one", "/var/log/app.log"⟩,
        ⟨"host0", 0, .Info, [], "file_in", "two", "/var/log/app.log"⟩] := by
  constructor <;> decide

/-- **C10.** Starting from the empty `Batch`, `push_elements v` followed by
`pop_elements` yields exactly `v` (same elements, same order) and leaves the
batch empty again; `Batch::None.is_empty` is `true`. -/
theorem batch_push_pop_roundtrip (T : Type) (v : List T) :
    ((Batch.None.push_elements v).pop_elements = (some v, Batch.None)) ∧
    ((Batch.None.push_elements v).pop_elements).2.is_empty = true ∧
    (Batch.None : Batch T).is_empty = true := by
  refine ⟨rfl, rfl, rfl⟩

end Rlog
